import Mathlib

/-!
Verification of the extraction/normalization core of the aiCarFinder repository
(`Facebook_Marketplace_Scraper.py`), as a shallow embedding in Lean.

The embedding models, faithfully to the Python source:

* the text-level field normalizers — `str.split()`, `int()`, `float()`,
  `str.strip()`, `str.lower()`, the two mileage regexes from
  `scrape_listings`/`search_listings` and the price stripping
  `re.sub(r'[^\d.]', '', ...)`;
* the parsed-JSON value space (`PyVal`, mirroring what `json.loads`
  produces: None, bool, int, float, str, list, dict) together with the
  Python operations the code applies to such values (`in`, subscription,
  `len`, truthiness, `str()` interpolation);
* the recursive listing search `search_listings` inside
  `_process_json_data`, including its three distinct node outcomes
  (not a candidate / rejected with early `return` / exception caught at
  the node) and its exception model (`ValueError` vs. other exceptions,
  since the price code catches only `ValueError`);
* the DOM fallback loop of `scrape_listings` over listing containers;
* the pure extraction pipeline of `scrape_listings` (the part after the
  HTML has been obtained): script blocks, the marker-substring test,
  `json.loads`, and the choice between the JSON records and the DOM
  fallback;
* `_get_sample_data` and `build_search_url`.

Known, deliberate modelling boundaries (none of them affects a claim):
Python `float` is modelled as an exact rational (no binary64 rounding, no
`inf`/`nan`/exponent-less corner spellings beyond the grammar below);
Unicode-only behaviors (`str.isdigit` on non-ASCII digits, `str.lower`
beyond ASCII, non-ASCII whitespace) are modelled on the ASCII range the
code and the claims exercise; `str()` of floats and the exact `repr`
escaping of containers inside f-strings are schematic.
-/

/-! ### Character classes and basic string helpers -/

/-- The whitespace class used by Python `str.split()`, `str.strip()` and the
regex `\s` (ASCII part). -/
def pyIsSpace (c : Char) : Bool :=
  c.toNat == 32 || (9 ≤ c.toNat && c.toNat ≤ 13)

/-- ASCII decimal digit test (`\d`, `str.isdigit` on the ASCII range). -/
def pyIsDigit (c : Char) : Bool :=
  48 ≤ c.toNat && c.toNat ≤ 57

/-- Numeric value of a decimal digit character. -/
def digitVal (c : Char) : Nat := c.toNat - 48

/-- Value of a list of decimal digit characters. -/
def digitsToNat (ds : List Char) : Nat :=
  ds.foldl (fun acc c => acc * 10 + digitVal c) 0

/-- Maximal leading run of decimal digits, and the remainder. -/
def digitsSpan (cs : List Char) : List Char × List Char :=
  (cs.takeWhile pyIsDigit, cs.dropWhile pyIsDigit)

/-- Drop a maximal leading run of whitespace (`\s*`, `lstrip`). -/
def dropSpaces : List Char → List Char
  | [] => []
  | c :: cs => bif pyIsSpace c then dropSpaces cs else c :: cs

/-- Python `str.strip()` on a character list. -/
def stripChars (cs : List Char) : List Char :=
  (dropSpaces (dropSpaces cs.reverse).reverse)

/-- Python `str.strip()`. -/
def pyStrip (s : String) : String :=
  String.mk (stripChars s.data)

/-- Tokenizer behind Python `str.split()` (no argument): split on whitespace
runs, producing only nonempty tokens.  `acc` is the current token, reversed. -/
def splitWsAux (acc : List Char) : List Char → List (List Char)
  | [] => if acc.isEmpty then [] else [acc.reverse]
  | c :: cs =>
    if pyIsSpace c then
      if acc.isEmpty then splitWsAux [] cs
      else acc.reverse :: splitWsAux [] cs
    else splitWsAux (c :: acc) cs

/-- Python `str.split()` (whitespace splitting, empties dropped). -/
def pySplit (s : String) : List String :=
  (splitWsAux [] s.data).map String.mk

/-- Substring test on character lists: does `needle` occur in `hay`?
(Python `needle in hay` for strings.) -/
def containsL (needle : List Char) : List Char → Bool
  | [] => needle.isEmpty
  | c :: t => needle.isPrefixOf (c :: t) || containsL needle t

/-- Python `needle in hay` on strings. -/
def strContains (hay needle : String) : Bool :=
  containsL needle.data hay.data

/-- Python `str.lower()` on the ASCII range. -/
def asciiLower (s : String) : String :=
  String.mk (s.data.map fun c =>
    if 'A' ≤ c && c ≤ 'Z' then Char.ofNat (c.toNat + 32) else c)

/-- Python `str.startswith`. -/
def pyStartsWith (s pre : String) : Bool :=
  pre.data.isPrefixOf s.data

/-! ### Python `int()` and `float()` on strings -/

/-- Digit sequence with single underscores allowed between digits, as accepted
by Python numeric literals/parsers since 3.6.  `go` has just consumed a digit. -/
def digitsUSGo (acc : Nat) : List Char → Option Nat
  | [] => some acc
  | '_' :: c :: cs =>
    if pyIsDigit c then digitsUSGo (acc * 10 + digitVal c) cs else none
  | '_' :: [] => none
  | c :: cs =>
    if pyIsDigit c then digitsUSGo (acc * 10 + digitVal c) cs else none

/-- Parse a full string of digits (with legal underscores) to its value;
`none` if empty, malformed or containing anything else. -/
def digitsUS : List Char → Option Nat
  | [] => none
  | c :: cs => if pyIsDigit c then digitsUSGo (digitVal c) cs else none

/-- Python `int(s)` for a string `s`: optional surrounding whitespace, an
optional sign, then a digit sequence.  `none` models `ValueError`. -/
def pyIntL (cs : List Char) : Option Int :=
  match stripChars cs with
  | '+' :: r => (digitsUS r).map Int.ofNat
  | '-' :: r => (digitsUS r).map fun n => -(n : Int)
  | r => (digitsUS r).map Int.ofNat

/-- Python `int(s)`. -/
def pyInt (s : String) : Option Int := pyIntL s.data

/-- Split a leading digit-with-underscores run (value, digit count, rest);
used for the exponent-free parts of a float literal.  Consumes greedily and
fails only on a dangling or doubled underscore. -/
def floatDigitsSpan (acc : Nat) (k : Nat) : List Char → Option (Nat × Nat × List Char)
  | [] => some (acc, k, [])
  | '_' :: c :: cs =>
    if pyIsDigit c then floatDigitsSpan (acc * 10 + digitVal c) (k + 1) cs
    else none
  | '_' :: [] => none
  | c :: cs =>
    if pyIsDigit c then floatDigitsSpan (acc * 10 + digitVal c) (k + 1) cs
    else some (acc, k, c :: cs)

/-- Parse the unsigned body of a Python float literal:
`digits [. digits] [e[sign]digits]` or `. digits [e...]`, at least one digit
before the exponent.  Returns the exact rational value.  (`inf`/`nan`
spellings are not modelled; no claim touches them.) -/
def pyFloatBody (cs : List Char) : Option Rat :=
  let exponentPart (mant : Rat) : List Char → Option Rat
    | [] => some mant
    | 'e' :: r =>
      (match r with
       | '+' :: r2 => (digitsUS r2).map fun e => mant * (10 : Rat) ^ e
       | '-' :: r2 => (digitsUS r2).map fun e => mant / (10 : Rat) ^ e
       | r2 => (digitsUS r2).map fun e => mant * (10 : Rat) ^ e)
    | 'E' :: r =>
      (match r with
       | '+' :: r2 => (digitsUS r2).map fun e => mant * (10 : Rat) ^ e
       | '-' :: r2 => (digitsUS r2).map fun e => mant / (10 : Rat) ^ e
       | r2 => (digitsUS r2).map fun e => mant * (10 : Rat) ^ e)
    | _ => none
  match cs with
  | '.' :: r =>
    match r with
    | c :: r2 =>
      if pyIsDigit c then
        match floatDigitsSpan (digitVal c) 1 r2 with
        | some (fv, fk, rest) => exponentPart ((fv : Rat) / (10 : Rat) ^ fk) rest
        | none => none
      else none
    | [] => none
  | c :: r =>
    if pyIsDigit c then
      match floatDigitsSpan (digitVal c) 1 r with
      | some (iv, _, rest) =>
        match rest with
        | '.' :: r2 =>
          (match r2 with
           | d :: r3 =>
             if pyIsDigit d then
               match floatDigitsSpan (digitVal d) 1 r3 with
               | some (fv, fk, rest2) =>
                 exponentPart ((iv : Rat) + (fv : Rat) / (10 : Rat) ^ fk) rest2
               | none => none
             else exponentPart (iv : Rat) (d :: r3)
           | [] => some (iv : Rat))
        | rest' => exponentPart (iv : Rat) rest'
      | none => none
    else none
  | [] => none

/-- Python `float(s)` for a string: optional whitespace, optional sign, body.
`none` models `ValueError`.  Exact rational value (binary64 rounding is not
modelled; every concrete value used below is exactly representable anyway). -/
def pyFloat (s : String) : Option Rat :=
  match stripChars s.data with
  | '+' :: r => pyFloatBody r
  | '-' :: r => (pyFloatBody r).map Neg.neg
  | r => pyFloatBody r

/-! ### The two mileage regexes and the price stripping -/

/-- Match the regex `(\d+)K\s*km` at the current position, returning the
captured integer.  Because `K` is not a digit, a backtracked (shorter) `\d+`
can never match, so the maximal digit run must be followed literally by `K`,
optional whitespace, then `km`. -/
def matchKkmAt (cs : List Char) : Option Nat :=
  match digitsSpan cs with
  | ([], _) => none
  | (ds, rest) =>
    match rest with
    | 'K' :: r2 =>
      match dropSpaces r2 with
      | 'k' :: 'm' :: _ => some (digitsToNat ds)
      | _ => none
    | _ => none

/-- The `re.search` position scan: try the position matcher at every suffix, left
to right, returning the leftmost match. -/
def reSearch (f : List Char → Option Nat) : List Char → Option Nat
  | [] => f []
  | c :: t =>
    match f (c :: t) with
    | some n => some n
    | none => reSearch f t

/-- Tail of the regex `(\d+(?:,\d+)*)\s*km` after the leading digits: try to
extend greedily with `,digits` groups, backtracking to fewer groups when the
`\s*km` suffix fails (the only real backtracking the pattern needs, since a
shortened `\d+` always leaves a digit where a non-digit is required).
`acc` carries the value of `group(1).replace(',', '')` so far.  Fuel is
structural bookkeeping only; each recursion consumes at least two characters,
so `r.length + 1` at the entry point is always enough. -/
def sepKmEnd (acc : Nat) (r : List Char) : Option Nat :=
  match dropSpaces r with
  | 'k' :: 'm' :: _ => some acc
  | _ => none

def sepKmGo (fuel : Nat) (acc : Nat) (r : List Char) : Option Nat :=
  match fuel with
  | 0 => none
  | fuel + 1 =>
    match r with
    | ',' :: r2 =>
      (match digitsSpan r2 with
       | ([], _) => sepKmEnd acc r
       | (ds, r3) =>
         match sepKmGo fuel (acc * 10 ^ ds.length + digitsToNat ds) r3 with
         | some v => some v
         | none => sepKmEnd acc r)
    | _ => sepKmEnd acc r

/-- Match the regex `(\d+(?:,\d+)*)\s*km` at the current position, returning
`int(group(1).replace(',', ''))`. -/
def matchSepKmAt (cs : List Char) : Option Nat :=
  match digitsSpan cs with
  | ([], _) => none
  | (ds, r) => sepKmGo (r.length + 1) (digitsToNat ds) r

/-- Run `re.search(r'(\d+)K\s*km', s)`, giving the captured group as a number. -/
def searchKkm (s : String) : Option Nat := reSearch matchKkmAt s.data

/-- Run `re.search(r'(\d+(?:,\d+)*)\s*km', s)`, giving the comma-stripped group. -/
def searchSepKm (s : String) : Option Nat := reSearch matchSepKmAt s.data

/-- Mileage normalization as in `scrape_listings` (lines 353-363): the `K`
form first (value times 1000), then the separator form, else 0. -/
def normalize_mileage (text : String) : Nat :=
  match searchKkm text with
  | some n => n * 1000
  | none =>
    match searchSepKm text with
    | some n => n
    | none => 0

/-- Python `re.sub(r'[^\d.]', '', s)`: keep only digits and decimal points. -/
def stripNonDigitDot (s : String) : String :=
  String.mk (s.data.filter fun c => pyIsDigit c || c == '.')

/-- DOM-path price normalization (lines 346-351): strip, `int()`, and 0 on
`ValueError`. -/
def domPriceVal (s : String) : Int :=
  (pyInt (stripNonDigitDot s)).getD 0


/-! ### The parsed-JSON value space and Python operations on it -/

/-- A value as produced by `json.loads`: `None`, `bool`, `int`, `float`,
`str`, `list`, `dict` (string keys, insertion-ordered). -/
inductive PyVal where
  | null
  | bool (b : Bool)
  | int (n : Int)
  | float (q : Rat)
  | str (s : String)
  | list (xs : List PyVal)
  | dict (kvs : List (String × PyVal))

/-- Exception classes the node-level code distinguishes: the price handler
catches `ValueError` only; everything else escapes to the per-node handler. -/
inductive PyErr where
  | valueE
  | otherE

/-- First-match association lookup (Python dict access; keys built by
`json.loads` are unique, later duplicates having overwritten earlier ones). -/
def objLookup (kvs : List (String × PyVal)) (k : String) : Option PyVal :=
  match kvs with
  | [] => none
  | (k', v) :: t => if k' = k then some v else objLookup t k

/-- Python `k in d` for a dict. -/
def objHasKey (kvs : List (String × PyVal)) (k : String) : Bool :=
  (objLookup kvs k).isSome

/-- Python truthiness of a value. -/
def truthy : PyVal → Bool
  | .null => false
  | .bool b => b
  | .int n => n != 0
  | .float q => q != 0
  | .str s => s != ""
  | .list xs => !xs.isEmpty
  | .dict kvs => !kvs.isEmpty

/-- Python `k in v` for a string key `k`: key test on dicts, membership on
lists (a non-string element never equals a string), substring test on
strings, `TypeError` otherwise. -/
def pyMem (k : String) : PyVal → Except PyErr Bool
  | .dict kvs => .ok (objHasKey kvs k)
  | .list xs => .ok (xs.any fun e => match e with | .str s => s == k | _ => false)
  | .str s => .ok (strContains s k)
  | _ => .error .otherE

/-- Python `v[k]` for a string key: dict lookup (`KeyError` when absent),
`TypeError` on anything else (including lists and strings). -/
def pyGetItemS : PyVal → String → Except PyErr PyVal
  | .dict kvs, k =>
    (match objLookup kvs k with
     | some v => .ok v
     | none => .error .otherE)
  | _, _ => .error .otherE

/-- Python `len(v)`: `TypeError` on numbers, booleans and `None`. -/
def pyLen : PyVal → Except PyErr Nat
  | .str s => .ok s.length
  | .list xs => .ok xs.length
  | .dict kvs => .ok kvs.length
  | _ => .error .otherE

/-- Python `v[0]`: list head (`IndexError` when empty), first character of a
string, `KeyError` on a string-keyed dict, `TypeError` otherwise. -/
def pyIndex0 : PyVal → Except PyErr PyVal
  | .list (x :: _) => .ok x
  | .list [] => .error .otherE
  | .str s =>
    (match s.data with
     | c :: _ => .ok (.str (String.mk [c]))
     | [] => .error .otherE)
  | _ => .error .otherE

/-- Python `for x in v`: list elements, characters of a string (as one-char
strings), keys of a dict; `TypeError` otherwise. -/
def iterElems : PyVal → Except PyErr (List PyVal)
  | .list xs => .ok xs
  | .str s => .ok (s.data.map fun c => .str (String.mk [c]))
  | .dict kvs => .ok (kvs.map fun kv => .str kv.1)
  | _ => .error .otherE

mutual
/-- Python `repr(v)` (scalars exact; container punctuation exact; string
escaping and float rendering schematic — no claim interpolates those). -/
def pyReprOf : PyVal → String
  | .null => "None"
  | .bool b => if b then "True" else "False"
  | .int n => toString n
  | .float q => toString q
  | .str s => "\x27" ++ s ++ "\x27"
  | .list xs => "[" ++ pyReprArr xs ++ "]"
  | .dict kvs => "\x7b" ++ pyReprObj kvs ++ "\x7d"
def pyReprArr : List PyVal → String
  | [] => ""
  | [x] => pyReprOf x
  | x :: xs => pyReprOf x ++ ", " ++ pyReprArr xs
def pyReprObj : List (String × PyVal) → String
  | [] => ""
  | [(k, v)] => "\x27" ++ k ++ "\x27: " ++ pyReprOf v
  | (k, v) :: kvs => "\x27" ++ k ++ "\x27: " ++ pyReprOf v ++ ", " ++ pyReprObj kvs
end

/-- Python `str(v)` as used by f-string interpolation: identity on strings,
`repr` otherwise. -/
def pyStrOf : PyVal → String
  | .str s => s
  | v => pyReprOf v

/-! ### The structured (embedded-JSON) extractor: `search_listings` -/

/-- One extracted listing record (`cars_dict`).  `price` is an `Option`
because the structured path only sets `Price` when the price object has an
`amount` key; `imageURL` is an `Option` because the DOM path never sets
`ImageURL` at all. -/
structure Listing where
  year : Int
  make : String
  model : String
  price : Option Rat
  mileage : Nat
  url : String
  imageURL : Option PyVal

/-- The shape predicate of line 396: a dict node is a listing candidate when
it has one of the two title keys and the price key. -/
def shapePred (obj : List (String × PyVal)) : Bool :=
  (objHasKey obj "marketplace_listing_title" || objHasKey obj "custom_title")
    && objHasKey obj "listing_price"

/-- Line 402: `obj.get('marketplace_listing_title', '') or obj.get('custom_title', '')`. -/
def titleValOf (obj : List (String × PyVal)) : PyVal :=
  let a := (objLookup obj "marketplace_listing_title").getD (.str "")
  if truthy a then a else (objLookup obj "custom_title").getD (.str "")

/-- The resolved title must be a string for `.split()` to work; a truthy
non-string raises `AttributeError` (caught at the node level). -/
def titleStrOf (obj : List (String × PyVal)) : Except PyErr String :=
  match titleValOf obj with
  | .str s => .ok s
  | _ => .error .otherE

/-- Python `float(v)` on an arbitrary value: numbers and booleans convert,
strings parse (`ValueError` on failure), everything else is a `TypeError` —
which the price handler does NOT catch. -/
def pyFloatVal : PyVal → Except PyErr Rat
  | .int n => .ok (n : Rat)
  | .float q => .ok q
  | .bool b => .ok (if b then 1 else 0)
  | .str s =>
    (match pyFloat s with
     | some q => .ok q
     | none => .error .valueE)
  | _ => .error .otherE

/-- Lines 420-424: `Price` is set only when `'amount' in obj['listing_price']`;
`float` failure with `ValueError` defaults to 0, any other exception escapes. -/
def priceOf (obj : List (String × PyVal)) : Except PyErr (Option Rat) :=
  if objHasKey obj "listing_price" then
    let lp := (objLookup obj "listing_price").getD .null
    match pyMem "amount" lp with
    | .error e => .error e
    | .ok false => .ok none
    | .ok true =>
      match pyGetItemS lp "amount" with
      | .error e => .error e
      | .ok av =>
        match pyFloatVal av with
        | .ok q => .ok (some q)
        | .error .valueE => .ok (some 0)
        | .error .otherE => .error .otherE
  else .ok none

/-- One iteration of the subtitle loop (lines 429-439): when the element has
a `subtitle` whose lowercased text contains `km`, the two mileage regexes run
on the original text; if neither matches, the accumulator is left unchanged
(it is NOT reset to 0). -/
def mileageStep (acc : Nat) (e : PyVal) : Except PyErr Nat :=
  match pyMem "subtitle" e with
  | .error err => .error err
  | .ok false => .ok acc
  | .ok true =>
    match pyGetItemS e "subtitle" with
    | .error err => .error err
    | .ok sv =>
      match sv with
      | .str s =>
        if strContains (asciiLower s) "km" then
          match searchKkm s with
          | some n => .ok (n * 1000)
          | none =>
            (match searchSepKm s with
             | some n => .ok n
             | none => .ok acc)
        else .ok acc
      | _ => .error .otherE

/-- Lines 426-441: mileage starts at 0 and is threaded through the subtitle
list (iterating a non-iterable value raises). -/
def mileageOf (obj : List (String × PyVal)) : Except PyErr Nat :=
  if objHasKey obj "custom_sub_titles_with_rendering_flags" then
    match iterElems ((objLookup obj "custom_sub_titles_with_rendering_flags").getD .null) with
    | .error e => .error e
    | .ok elems => elems.foldlM mileageStep 0
  else .ok 0

/-- Line 444: the item-URL template around `str(obj.get('id', ''))`. -/
def urlOf (obj : List (String × PyVal)) : String :=
  "https://www.facebook.com/marketplace/item/" ++ pyStrOf ((objLookup obj "id").getD (.str ""))

/-- The fixed placeholder image URL of line 460. -/
def placeholderImage : PyVal :=
  .str "https://static.xx.fbcdn.net/rsrc.php/v3/yQ/r/8SkRZ1o0i0K.png"

/-- The photo-dict probe shared by lines 447-450 and 453-456:
`if 'image' in p: if 'uri' in p['image']: take p['image']['uri']`. -/
def imgFromPhotoVal (p : PyVal) : Except PyErr (Option PyVal) :=
  match pyMem "image" p with
  | .error e => .error e
  | .ok false => .ok none
  | .ok true =>
    match pyGetItemS p "image" with
    | .error e => .error e
    | .ok img =>
      match pyMem "uri" img with
      | .error e => .error e
      | .ok false => .ok none
      | .ok true =>
        (match pyGetItemS img "uri" with
         | .error e => .error e
         | .ok u => .ok (some u))

/-- Lines 452-456: the fallback probe of `listing_photos[0]` when the first
probe set nothing, guarded by the key test and `len(...) > 0`. -/
def imageFallback (obj : List (String × PyVal)) : Except PyErr PyVal :=
  if objHasKey obj "listing_photos" then
    match pyLen ((objLookup obj "listing_photos").getD .null) with
    | .error e => .error e
    | .ok n =>
      if 0 < n then
        match pyIndex0 ((objLookup obj "listing_photos").getD .null) with
        | .error e => .error e
        | .ok e0 =>
          match imgFromPhotoVal e0 with
          | .error e => .error e
          | .ok (some u) => .ok u
          | .ok none => .ok placeholderImage
      else .ok placeholderImage
  else .ok placeholderImage

/-- Lines 446-460: primary photo first, then the `listing_photos` fallback,
then the fixed placeholder. -/
def imageOf (obj : List (String × PyVal)) : Except PyErr PyVal :=
  if objHasKey obj "primary_listing_photo" then
    match imgFromPhotoVal ((objLookup obj "primary_listing_photo").getD .null) with
    | .error e => .error e
    | .ok (some u) => .ok u
    | .ok none => imageFallback obj
  else imageFallback obj

/-- Outcome of looking at one dict node in `search_listings`:
`stop` models the early `return` on a rejected candidate (children NOT
visited), `skip` models both a non-candidate and a caught per-node exception
(children visited), `found` appends a record (children also visited). -/
inductive ProcOut where
  | stop
  | skip
  | found (r : Listing)

/-- The body of the `try` block of lines 397-465 for a candidate node. -/
def processCandidate (obj : List (String × PyVal)) : ProcOut :=
  match titleStrOf obj with
  | .error _ => .skip
  | .ok s =>
    if (pySplit s).length < 3 then .stop
    else
      match pyInt ((pySplit s).getD 0 "") with
      | none => .stop
      | some y =>
        match priceOf obj with
        | .error _ => .skip
        | .ok price? =>
          match mileageOf obj with
          | .error _ => .skip
          | .ok mil =>
            match imageOf obj with
            | .error _ => .skip
            | .ok img =>
              .found { year := y, make := (pySplit s).getD 1 "",
                       model := (pySplit s).getD 2 "",
                       price := price?, mileage := mil, url := urlOf obj,
                       imageURL := some img }

/-- One dict node of `search_listings`: the candidate body runs only when the
shape predicate holds. -/
def processNode (obj : List (String × PyVal)) : ProcOut :=
  if shapePred obj then processCandidate obj else .skip

mutual
/-- The recursive search of `_process_json_data` (lines 393-472): depth-first,
record before children, children of dicts in insertion order; a rejected
candidate returns early and its children are never visited. -/
def search_listings : PyVal → List Listing
  | .dict kvs =>
    (match processNode kvs with
     | .stop => []
     | .skip => searchObjVals kvs
     | .found r => r :: searchObjVals kvs)
  | .list xs => searchArrElems xs
  | _ => []
def searchArrElems : List PyVal → List Listing
  | [] => []
  | x :: xs => search_listings x ++ searchArrElems xs
def searchObjVals : List (String × PyVal) → List Listing
  | [] => []
  | (_, v) :: kvs => search_listings v ++ searchObjVals kvs
end

/-- A qualifying candidate node with an id and a parsable price. -/
def objGood : List (String × PyVal) :=
  [("custom_title", .str "2018 Honda Civic EX"),
   ("listing_price", .dict [("amount", .str "15995")]),
   ("id", .str "123")]

/-- A qualifying candidate node (no id, no photos). -/
def objInner : List (String × PyVal) :=
  [("custom_title", .str "2018 Honda Civic"),
   ("listing_price", .dict [("amount", .str "9")])]

/-- A candidate rejected for its one-token title, with a qualifying node
nested inside it. -/
def objRejectedOuter : List (String × PyVal) :=
  [("custom_title", .str "bad"),
   ("listing_price", .dict [("amount", .str "1")]),
   ("child", .dict objInner)]

/-- A candidate whose price amount is the string "-1". -/
def objNeg : List (String × PyVal) :=
  [("custom_title", .str "2018 Honda Civic"),
   ("listing_price", .dict [("amount", .str "-1")])]

/-- A candidate with a primary listing photo. -/
def objImg : List (String × PyVal) :=
  [("custom_title", .str "2018 Honda Civic"),
   ("listing_price", .dict [("amount", .str "5")]),
   ("primary_listing_photo", .dict [("image", .dict [("uri", .str "http://img")])])]

/-! ### The DOM fallback extractor (lines 289-371) -/

/-- A candidate listing container from the DOM: its `span` texts in document
order, and the `href` of its first hyperlink if any. -/
structure Container where
  spans : List String
  href : Option String

/-- Python `str.isdigit()` (ASCII range): nonempty and all digits. -/
def isdigitStr (s : String) : Bool :=
  !s.data.isEmpty && s.data.all pyIsDigit

/-- Line 294: a title span has text, at least 3 tokens, a digit-only first
token. -/
def isTitleSpan (s : String) : Bool :=
  s != "" && decide (3 ≤ (pySplit s).length) && isdigitStr ((pySplit s).getD 0 "")

/-- Line 304: a price span has text containing a dollar sign. -/
def isPriceSpan (s : String) : Bool :=
  s != "" && strContains s "$"

/-- Line 324: a mileage span has text whose lowercasing contains `km`. -/
def isKmSpan (s : String) : Bool :=
  s != "" && strContains (asciiLower s) "km"

/-- One container of the DOM fallback loop (lines 289-371): `none` models
`continue` (missing title/price/link element, short title, bad year — the
per-container handler also swallows any exception, and this body is total). -/
def domProcess (c : Container) : Option Listing :=
  match c.spans.find? isTitleSpan with
  | none => none
  | some title0 =>
    match c.spans.find? isPriceSpan with
    | none => none
    | some price0 =>
      match c.href with
      | none => none
      | some url0 =>
        if (pySplit (pyStrip title0)).length < 3 then none
        else
          match pyInt ((pySplit (pyStrip title0)).getD 0 "") with
          | none => none
          | some y =>
            some { year := y, make := (pySplit (pyStrip title0)).getD 1 "",
                   model := (pySplit (pyStrip title0)).getD 2 "",
                   price := some ((domPriceVal (pyStrip price0) : Int) : Rat),
                   mileage := normalize_mileage
                     (match c.spans.find? isKmSpan with
                      | some m => pyStrip m
                      | none => "0 km"),
                   url := if pyStartsWith url0 "http" then url0
                          else "https://www.facebook.com" ++ url0,
                   imageURL := none }

/-- The whole DOM fallback pass over the found containers. -/
def domExtract (cs : List Container) : List Listing :=
  cs.filterMap domProcess

/-! ### `json.loads` (the subset relevant here; see the header note) -/

/-- JSON whitespace (space, tab, newline, carriage return). -/
def jsonIsWs (c : Char) : Bool :=
  c.toNat == 32 || c.toNat == 9 || c.toNat == 10 || c.toNat == 13

def jsonSkipWs : List Char → List Char
  | [] => []
  | c :: cs => bif jsonIsWs c then jsonSkipWs cs else c :: cs

def hexDigitVal (c : Char) : Option Nat :=
  if pyIsDigit c then some (digitVal c)
  else if 97 ≤ c.toNat && c.toNat ≤ 102 then some (c.toNat - 87)
  else if 65 ≤ c.toNat && c.toNat ≤ 70 then some (c.toNat - 55)
  else none

/-- Body of a JSON string literal after the opening quote, with the standard
escapes. -/
def parseStrLitGo (acc : List Char) : List Char → Option (String × List Char)
  | [] => none
  | '"' :: cs => some (String.mk acc.reverse, cs)
  | '\\' :: e :: cs =>
    (match e with
     | '"' => parseStrLitGo ('"' :: acc) cs
     | '\\' => parseStrLitGo ('\\' :: acc) cs
     | '/' => parseStrLitGo ('/' :: acc) cs
     | 'b' => parseStrLitGo ('\x08' :: acc) cs
     | 'f' => parseStrLitGo ('\x0c' :: acc) cs
     | 'n' => parseStrLitGo ('\n' :: acc) cs
     | 'r' => parseStrLitGo ('\r' :: acc) cs
     | 't' => parseStrLitGo ('\t' :: acc) cs
     | 'u' =>
       (match cs with
        | h1 :: h2 :: h3 :: h4 :: cs2 =>
          (match hexDigitVal h1, hexDigitVal h2, hexDigitVal h3, hexDigitVal h4 with
           | some a, some b, some c', some d =>
             parseStrLitGo (Char.ofNat (((a * 16 + b) * 16 + c') * 16 + d) :: acc) cs2
           | _, _, _, _ => none)
        | _ => none)
     | _ => none)
  | '\\' :: [] => none
  | c :: cs => parseStrLitGo (c :: acc) cs

/-- JSON integer part: `0` or a nonzero digit followed by digits. -/
def jsonIntPart : List Char → Option (Nat × List Char)
  | '0' :: cs => some (0, cs)
  | c :: cs =>
    if pyIsDigit c && c != '0' then
      let (ds, r) := digitsSpan cs
      some (digitsToNat (c :: ds), r)
    else none
  | [] => none

/-- Optional exponent `([eE][+-]?digits)`; invalid or absent exponents leave
the input untouched (the outer parse then fails on the stray character, as
`json.loads` does). -/
def tryExp (r : List Char) : Option (Int × List Char) :=
  match r with
  | e :: r1 =>
    if e == 'e' || e == 'E' then
      match r1 with
      | '+' :: r2 =>
        (match digitsSpan r2 with
         | ([], _) => none
         | (ds, r3) => some ((digitsToNat ds : Int), r3))
      | '-' :: r2 =>
        (match digitsSpan r2 with
         | ([], _) => none
         | (ds, r3) => some (-(digitsToNat ds : Int), r3))
      | r2 =>
        (match digitsSpan r2 with
         | ([], _) => none
         | (ds, r3) => some ((digitsToNat ds : Int), r3))
    else none
  | [] => none

def ratPow10 (e : Int) (m : Rat) : Rat :=
  if 0 ≤ e then m * (10 : Rat) ^ e.toNat else m / (10 : Rat) ^ (-e).toNat

/-- A JSON number: `int` when written without fraction or exponent, `float`
otherwise (exact rational; `json.loads` produces a binary64). -/
def parseNumber (cs : List Char) : Option (PyVal × List Char) :=
  let core := fun (neg : Bool) (cs1 : List Char) =>
    match jsonIntPart cs1 with
    | none => none
    | some (ip, r1) =>
      let signed : Int := if neg then -(ip : Int) else (ip : Int)
      match r1 with
      | '.' :: r2 =>
        (match digitsSpan r2 with
         | ([], _) => none
         | (fs, r3) =>
           let mant : Rat :=
             (ip : Rat) + (digitsToNat fs : Rat) / (10 : Rat) ^ fs.length
           let mant := if neg then -mant else mant
           match tryExp r3 with
           | some (e, r4) => some (PyVal.float (ratPow10 e mant), r4)
           | none => some (PyVal.float mant, r3))
      | _ =>
        (match tryExp r1 with
         | some (e, r4) => some (PyVal.float (ratPow10 e (signed : Rat)), r4)
         | none => some (PyVal.int signed, r1))
  match cs with
  | '-' :: r => core true r
  | r => core false r

mutual
/-- Recursive-descent JSON value parser; `fuel` is structural bookkeeping,
decremented on every call, and `jsonLoads` supplies more than enough. -/
def parseV : Nat → List Char → Option (PyVal × List Char)
  | 0, _ => none
  | fuel + 1, cs =>
    match jsonSkipWs cs with
    | [] => none
    | c :: r =>
      if c == Char.ofNat 123 then
        match jsonSkipWs r with
        | c2 :: r2 =>
          if c2 == Char.ofNat 125 then some (.dict [], r2)
          else (parseMembers fuel (c2 :: r2)).map fun p => (PyVal.dict p.1, p.2)
        | [] => none
      else if c == '[' then
        match jsonSkipWs r with
        | ']' :: r2 => some (.list [], r2)
        | r1 => (parseItems fuel r1).map fun p => (PyVal.list p.1, p.2)
      else if c == '"' then
        (parseStrLitGo [] r).map fun p => (PyVal.str p.1, p.2)
      else if c == 't' then
        match r with
        | 'r' :: 'u' :: 'e' :: rest => some (.bool true, rest)
        | _ => none
      else if c == 'f' then
        match r with
        | 'a' :: 'l' :: 's' :: 'e' :: rest => some (.bool false, rest)
        | _ => none
      else if c == 'n' then
        match r with
        | 'u' :: 'l' :: 'l' :: rest => some (.null, rest)
        | _ => none
      else parseNumber (c :: r)
/-- One-or-more `"key": value` members, ending at the closing brace.
(`json.loads` keeps the last duplicate of a key; the pages and inputs here
have unique keys, and `objLookup` reads the model dicts first-match.) -/
def parseMembers : Nat → List Char → Option (List (String × PyVal) × List Char)
  | 0, _ => none
  | fuel + 1, cs =>
    match jsonSkipWs cs with
    | '"' :: r =>
      (match parseStrLitGo [] r with
       | none => none
       | some (k, r1) =>
         match jsonSkipWs r1 with
         | ':' :: r2 =>
           (match parseV fuel r2 with
            | none => none
            | some (v, r3) =>
              match jsonSkipWs r3 with
              | ',' :: r4 =>
                (parseMembers fuel r4).map fun p => ((k, v) :: p.1, p.2)
              | c :: r4 =>
                if c == Char.ofNat 125 then some ([(k, v)], r4) else none
              | [] => none)
         | _ => none)
    | _ => none
/-- One-or-more comma-separated array items, ending at the closing bracket. -/
def parseItems : Nat → List Char → Option (List PyVal × List Char)
  | 0, _ => none
  | fuel + 1, cs =>
    match parseV fuel cs with
    | none => none
    | some (v, r1) =>
      match jsonSkipWs r1 with
      | ',' :: r2 => (parseItems fuel r2).map fun p => (v :: p.1, p.2)
      | ']' :: r2 => some ([v], r2)
      | _ => none
end

/-- Python `json.loads(s)`: parse one value with surrounding whitespace, demanding
the input be consumed.  `none` models the raised `JSONDecodeError`. -/
def jsonLoads (s : String) : Option PyVal :=
  match parseV (s.length + 2) s.data with
  | some (v, rest) => if (jsonSkipWs rest).isEmpty then some v else none
  | none => none

/-! ### The extraction pipeline of `scrape_listings` (lines 250-376) -/

/-- Line 262: the marker-substring test deciding `json_data_found`. -/
def hasMarker (s : String) : Bool :=
  strContains s "marketplace_listing_title" || strContains s "custom_title"

/-- Records contributed by one script block: skipped when falsy (line 257),
searched when the marker is present and the block parses; a parse failure is
caught and contributes nothing (lines 260-271). -/
def scriptRecords (s : String) : List Listing :=
  if s = "" then []
  else if hasMarker s then
    match jsonLoads s with
    | some v => search_listings v
    | none => []
  else []

/-- All records from the structured pass over the script blocks, in order. -/
def structuredAll (scripts : List String) : List Listing :=
  (scripts.map scriptRecords).flatten

/-- Loop state of the script pass: (`json_data_found`, `vehicles_list`). -/
def scrapeStep (st : Bool × List Listing) (s : String) : Bool × List Listing :=
  if s = "" then st
  else if hasMarker s then
    (true,
      match jsonLoads s with
      | some v => st.2 ++ search_listings v
      | none => st.2)
  else st

/-- The pure extraction pipeline of `scrape_listings` after the HTML is in
hand: run the script pass; when `json_data_found` was set, return whatever
the structured pass produced (even nothing), otherwise run the DOM fallback
(lines 273-376). -/
def scrapeExtract (scripts : List String) (containers : List Container) : List Listing :=
  let res := scripts.foldl scrapeStep (false, [])
  if res.1 then res.2 else domExtract containers

/-- The sample set `_get_sample_data` (lines 477-532), returned by `scrape_listings` when
the browser cannot be initialized or an exception escapes the scrape — not
as part of the pure extraction pipeline above. -/
def sample_data : List Listing :=
  [{ year := 2018, make := "Honda", model := "Civic", price := some 15995,
     mileage := 78500,
     url := "https://www.facebook.com/marketplace/item/sample1",
     imageURL := some (.str "https://upload.wikimedia.org/wikipedia/commons/thumb/5/57/2018_Honda_Civic_SE_1.4_Front.jpg/1200px-2018_Honda_Civic_SE_1.4_Front.jpg") },
   { year := 2017, make := "Toyota", model := "Corolla", price := some 14500,
     mileage := 65000,
     url := "https://www.facebook.com/marketplace/item/sample2",
     imageURL := some (.str "https://upload.wikimedia.org/wikipedia/commons/thumb/f/f6/2017_Toyota_Corolla_%28ZRE172R%29_Ascent_sedan_%282018-11-02%29_01.jpg/1200px-2017_Toyota_Corolla_%28ZRE172R%29_Ascent_sedan_%282018-11-02%29_01.jpg") },
   { year := 2019, make := "Mazda", model := "3", price := some 17995,
     mileage := 45000,
     url := "https://www.facebook.com/marketplace/item/sample3",
     imageURL := some (.str "https://upload.wikimedia.org/wikipedia/commons/thumb/8/8c/2019_Mazda3_Sport_2.5L_AWD_%28North_America%29_front_NYIAS_2019.jpg/1200px-2019_Mazda3_Sport_2.5L_AWD_%28North_America%29_front_NYIAS_2019.jpg") },
   { year := 2016, make := "Hyundai", model := "Elantra", price := some 12500,
     mileage := 89000,
     url := "https://www.facebook.com/marketplace/item/sample4",
     imageURL := some (.str "https://upload.wikimedia.org/wikipedia/commons/thumb/c/c5/2016_Hyundai_Elantra_%28AD%29_Elite_sedan_%282018-11-02%29_01.jpg/1200px-2016_Hyundai_Elantra_%28AD%29_Elite_sedan_%282018-11-02%29_01.jpg") },
   { year := 2020, make := "Nissan", model := "Sentra", price := some 18995,
     mileage := 32000,
     url := "https://www.facebook.com/marketplace/item/sample5",
     imageURL := some (.str "https://upload.wikimedia.org/wikipedia/commons/thumb/f/fd/2020_Nissan_Sentra_SR%2C_front_12.21.19.jpg/1200px-2020_Nissan_Sentra_SR%2C_front_12.21.19.jpg") }]

/-! ### `build_search_url` (lines 105-164) -/

/-- The search filters: a required location and the optional bounds. -/
structure FilterOptions where
  location : String
  min_price : Option Int := none
  max_price : Option Int := none
  days_listed : Option Int := none
  min_mileage : Option Int := none
  max_mileage : Option Int := none
  min_year : Option Int := none
  max_year : Option Int := none
  transmission : Option String := none
  make : Option String := none
  model : Option String := none

/-- The builder `build_search_url`: sequential conditional appends in source order, the
combined `query` parameter, the trailing `exact=false`, then the base URL
with the `&`-joined parameters. -/
def build_search_url (o : FilterOptions) : String :=
  let params : List String :=
    (match o.min_price with | some n => ["minPrice=" ++ toString n] | none => [])
    ++ (match o.max_price with | some n => ["maxPrice=" ++ toString n] | none => [])
    ++ (match o.days_listed with | some n => ["daysSinceListed=" ++ toString n] | none => [])
    ++ (match o.min_mileage with | some n => ["minMileage=" ++ toString n] | none => [])
    ++ (match o.max_mileage with | some n => ["maxMileage=" ++ toString n] | none => [])
    ++ (match o.min_year with | some n => ["minYear=" ++ toString n] | none => [])
    ++ (match o.max_year with | some n => ["maxYear=" ++ toString n] | none => [])
    ++ (match o.transmission with | some t => ["transmissionType=" ++ t] | none => [])
    ++ (match o.make, o.model with
        | some mk, some md => ["query=" ++ mk ++ md]
        | some mk, none => ["query=" ++ mk]
        | none, some md => ["query=" ++ md]
        | none, none => [])
    ++ ["exact=false"]
  "https://www.facebook.com/marketplace/" ++ o.location ++ "/search?"
    ++ String.intercalate "&" params


/-! ### Spec-side definitions (for comparison with the source embedding) -/

/-- Wrap a value `k` levels deep inside single-key objects whose key is not a
title key (so no wrapper is itself a candidate). -/
def wrapK : Nat → PyVal → PyVal
  | 0, v => v
  | k + 1, v => .dict [("wrapped", wrapK k v)]

/-- The rejection condition of the structured extractor, per the spec's
words: the node is shaped like a listing and its resolved title is a string
with fewer than 3 whitespace tokens, or one whose first token fails integer
parsing. -/
def rejectCond (obj : List (String × PyVal)) : Bool :=
  shapePred obj &&
    match titleStrOf obj with
    | .ok s =>
      decide ((pySplit s).length < 3) || ((pyInt ((pySplit s).getD 0 "")).isNone)
    | .error _ => false

/-- Child probe of the image fallback chain, per the spec's words: a key of
an object node, absent anywhere else. -/
def chainGet (v : PyVal) (k : String) : Option PyVal :=
  match v with
  | .dict kvs => objLookup kvs k
  | _ => none

/-- First entry of a listing-photos list, per the spec's words. -/
def firstElem : PyVal → Option PyVal
  | .list (x :: _) => some x
  | _ => none

/-- The ordered image fallback chain as the spec states it: the primary
listing photo's image URI, else the first listing-photos entry's image URI,
else the fixed placeholder. -/
def specImageChain (obj : List (String × PyVal)) : PyVal :=
  (((objLookup obj "primary_listing_photo").bind fun p =>
      (chainGet p "image").bind fun i => chainGet i "uri").or
   (((objLookup obj "listing_photos").bind firstElem).bind fun p =>
      (chainGet p "image").bind fun i => chainGet i "uri")).getD placeholderImage

/-- The query parameters in the fixed order the claim states, one optional
parameter per absent-or-present field, the combined `query`, and the
trailing `exact=false`. -/
def query_params_spec (o : FilterOptions) : List String :=
  ([o.min_price.map fun n => "minPrice=" ++ toString n,
    o.max_price.map fun n => "maxPrice=" ++ toString n,
    o.days_listed.map fun n => "daysSinceListed=" ++ toString n,
    o.min_mileage.map fun n => "minMileage=" ++ toString n,
    o.max_mileage.map fun n => "maxMileage=" ++ toString n,
    o.min_year.map fun n => "minYear=" ++ toString n,
    o.max_year.map fun n => "maxYear=" ++ toString n,
    o.transmission.map fun t => "transmissionType=" ++ t,
    (match o.make, o.model with
     | some mk, some md => some ("query=" ++ mk ++ md)
     | some mk, none => some ("query=" ++ mk)
     | none, some md => some ("query=" ++ md)
     | none, none => none)].filterMap id) ++ ["exact=false"]

/-- The URL as the claim describes it: base, location, and the `&`-joined
parameter list above. -/
def build_search_url_spec (o : FilterOptions) : String :=
  "https://www.facebook.com/marketplace/" ++ o.location ++ "/search?"
    ++ String.intercalate "&" (query_params_spec o)

/-- A record with every claim-named field populated (Year and Mileage are
always-present integers; the rest must be nonempty/set). -/
def recordPopulated (r : Listing) : Bool :=
  r.make != "" && r.model != "" && r.price.isSome && r.url != "" && r.imageURL.isSome

/-! ### Concrete inputs used by counterexamples and witnesses -/

/-- A candidate whose title has a numeric token last, as in the spec's year
rejection example. -/
def objYearNotFirst : List (String × PyVal) :=
  [("custom_title", .str "Honda Civic 2018"),
   ("listing_price", .dict [("amount", .str "1")])]

/-- A candidate with a well-formed title whose price amount is JSON `null`:
`float(None)` raises `TypeError`, which the price handler does not catch. -/
def objAmountNull : List (String × PyVal) :=
  [("custom_title", .str "2018 Honda Civic EX"),
   ("listing_price", .dict [("amount", .null)])]

/-- A DOM container whose price text strips to nothing. -/
def naContainer : Container :=
  { spans := ["2018 Honda Civic EX", "$ N/A"], href := some "/x" }

/-- A well-formed DOM container. -/
def goodContainer : Container :=
  { spans := ["2018 Honda Civic EX", "$5,000"], href := some "/x" }

/-- A script block that carries the marker substring and parses, but yields
no records (no `listing_price` key anywhere). -/
def markerOnlyScript : String := "\x7b\"custom_title\": 0\x7d"

/-- A script block that parses to one qualifying listing node. -/
def goodScript : String :=
  "\x7b\"custom_title\": \"2018 Honda Civic\", \"listing_price\": \x7b\"amount\": \"9\"\x7d\x7d"

/-- The record `search_listings` produces for `objGood`. -/
def goodJsonRecord : Listing :=
  { year := 2018, make := "Honda", model := "Civic", price := some 15995,
    mileage := 0, url := "https://www.facebook.com/marketplace/item/123",
    imageURL := some placeholderImage }

/-- The record the DOM pass produces for `goodContainer`. -/
def goodDomRecord : Listing :=
  { year := 2018, make := "Honda", model := "Civic", price := some 5000,
    mileage := 0, url := "https://www.facebook.com/x", imageURL := none }

/-! ### Helper lemmas -/

theorem mem_dropSpaces {c : Char} : ∀ {l : List Char}, c ∈ dropSpaces l → c ∈ l
  | [], h => h
  | a :: l, h => by
    unfold dropSpaces at h
    cases hs : pyIsSpace a with
    | true =>
      rw [hs] at h
      simp only [Bool.cond_true] at h
      exact List.mem_cons_of_mem a (mem_dropSpaces h)
    | false =>
      rw [hs] at h
      simpa only [Bool.cond_false] using h

theorem mem_stripChars {c : Char} {l : List Char} (h : c ∈ stripChars l) : c ∈ l := by
  unfold stripChars at h
  have h1 := mem_dropSpaces h
  rw [List.mem_reverse] at h1
  have h2 := mem_dropSpaces h1
  rw [List.mem_reverse] at h2
  exact h2

/-- Parsing a text without a minus sign with `int()` is nonnegative. -/
theorem pyIntL_nonneg {cs : List Char} {n : Int} (hd : '-' ∉ cs)
    (h : pyIntL cs = some n) : 0 ≤ n := by
  unfold pyIntL at h
  split at h
  · obtain ⟨m, _, hn⟩ := Option.map_eq_some'.mp h
    simp only [Int.ofNat_eq_natCast] at hn
    omega
  · next r heq =>
    exact absurd (mem_stripChars (heq ▸ List.mem_cons_self '-' r)) hd
  · obtain ⟨m, _, hn⟩ := Option.map_eq_some'.mp h
    simp only [Int.ofNat_eq_natCast] at hn
    omega

/-- The DOM price normalization never produces a negative value. -/
theorem domPriceVal_nonneg (s : String) : 0 ≤ domPriceVal s := by
  unfold domPriceVal
  cases h : pyInt (stripNonDigitDot s) with
  | none => simp
  | some n =>
    simp only [Option.getD_some]
    refine pyIntL_nonneg ?_ h
    intro hmem
    simp only [stripNonDigitDot] at hmem
    rcases List.mem_filter.mp hmem with ⟨_, hp⟩
    simp [pyIsDigit] at hp

theorem splitWsAux_ne_nil : ∀ (cs acc : List Char), ∀ t ∈ splitWsAux acc cs, t ≠ []
  | [], acc, t, ht => by
    unfold splitWsAux at ht
    split at ht
    · simp at ht
    · next hne =>
      simp only [List.mem_singleton] at ht
      subst ht
      simp only [ne_eq, List.reverse_eq_nil_iff]
      simpa [List.isEmpty_iff] using hne
  | c :: cs, acc, t, ht => by
    unfold splitWsAux at ht
    split at ht
    · split at ht
      · exact splitWsAux_ne_nil cs [] t ht
      · next hne =>
        rcases List.mem_cons.mp ht with rfl | h
        · simp only [ne_eq, List.reverse_eq_nil_iff]
          simpa [List.isEmpty_iff] using hne
        · exact splitWsAux_ne_nil cs [] t h
    · exact splitWsAux_ne_nil cs (c :: acc) t ht

/-- Python `split()` yields no empty token. -/
theorem pySplit_ne_empty {s t : String} (h : t ∈ pySplit s) : t ≠ "" := by
  unfold pySplit at h
  rcases List.mem_map.mp h with ⟨l, hl, rfl⟩
  intro hEq
  apply splitWsAux_ne_nil s.data [] l hl
  simpa using congrArg String.data hEq

theorem getD_mem {α : Type} : ∀ (l : List α) (i : Nat) (d : α), i < l.length → l.getD i d ∈ l
  | [], i, d, h => by simp at h
  | a :: l, 0, d, _ => by simp
  | a :: l, i + 1, d, h => by
    simp only [List.getD_cons_succ]
    exact List.mem_cons_of_mem a (getD_mem l i d (by simpa using h))

/-- Inversion of a successful structured candidate: every produced record
carries exactly the data the candidate body computed. -/
theorem processNode_found_inv {obj : List (String × PyVal)} {r : Listing}
    (h : processNode obj = ProcOut.found r) :
    shapePred obj = true ∧
    ∃ s, titleStrOf obj = .ok s ∧
      3 ≤ (pySplit s).length ∧
      pyInt ((pySplit s).getD 0 "") = some r.year ∧
      r.make = (pySplit s).getD 1 "" ∧
      r.model = (pySplit s).getD 2 "" ∧
      priceOf obj = .ok r.price ∧
      mileageOf obj = .ok r.mileage ∧
      (∃ u, imageOf obj = .ok u ∧ r.imageURL = some u) ∧
      r.url = urlOf obj := by
  unfold processNode at h
  split at h
  case isTrue hs =>
    unfold processCandidate at h
    split at h
    · simp at h
    · next s hts =>
      split at h
      · simp at h
      · next hlen =>
        split at h
        · simp at h
        · next y hy =>
          split at h
          · simp at h
          · next p hp =>
            split at h
            · simp at h
            · next m hm =>
              split at h
              · simp at h
              · next u hu =>
                cases h
                exact ⟨hs, s, hts, by omega, hy, rfl, rfl, hp, hm, ⟨u, hu, rfl⟩, rfl⟩
  case isFalse => simp at h

/-- A false Python membership test means the spec-side probe finds nothing. -/
theorem chainGet_none_of_mem_false {k : String} {p : PyVal}
    (h : pyMem k p = .ok false) : chainGet p k = none := by
  cases p with
  | dict kvs =>
    simp only [pyMem, Except.ok.injEq, objHasKey] at h
    simpa [chainGet] using Option.not_isSome_iff_eq_none.mp (by simp [h])
  | null => simp [chainGet]
  | bool b => simp [chainGet]
  | int n => simp [chainGet]
  | float q => simp [chainGet]
  | str s => simp [chainGet]
  | list xs => simp [chainGet]

/-- A successful string subscription is a dict lookup. -/
theorem chainGet_some_of_getItem {k : String} {p v : PyVal}
    (h : pyGetItemS p k = .ok v) : chainGet p k = some v := by
  cases p with
  | dict kvs =>
    simp only [pyGetItemS] at h
    cases hl : objLookup kvs k with
    | none => rw [hl] at h; simp at h
    | some w => rw [hl] at h; simp at h; simp [chainGet, hl, h]
  | null => simp [pyGetItemS] at h
  | bool b => simp [pyGetItemS] at h
  | int n => simp [pyGetItemS] at h
  | float q => simp [pyGetItemS] at h
  | str s => simp [pyGetItemS] at h
  | list xs => simp [pyGetItemS] at h

/-- The shared photo probe agrees with the spec-side two-step chain whenever
it does not raise. -/
theorem imgFromPhotoVal_chain {p : PyVal} {o : Option PyVal}
    (h : imgFromPhotoVal p = .ok o) :
    o = (chainGet p "image").bind fun i => chainGet i "uri" := by
  unfold imgFromPhotoVal at h
  split at h
  · simp at h
  · next hm =>
    simp only [Except.ok.injEq] at h
    rw [chainGet_none_of_mem_false hm]
    simp [← h]
  · next hm =>
    split at h
    · simp at h
    · next img hg =>
      rw [chainGet_some_of_getItem hg]
      split at h
      · simp at h
      · next hm2 =>
        simp only [Except.ok.injEq] at h
        rw [Option.some_bind, chainGet_none_of_mem_false hm2]
        simp [← h]
      · next hm2 =>
        split at h
        · simp at h
        · next u hu =>
          simp only [Except.ok.injEq] at h
          rw [Option.some_bind, chainGet_some_of_getItem hu]
          simp [← h]

/-- A one-character string never contains the five-character key `image`. -/
theorem strContains_single_image (c : Char) :
    strContains (String.mk [c]) "image" = false := by
  show containsL ['i', 'm', 'a', 'g', 'e'] [c] = false
  simp [containsL, List.isPrefixOf]

/-- The fallback probe agrees with the spec-side chain through
`listing_photos` whenever it does not raise. -/
theorem imageFallback_chain {obj : List (String × PyVal)} {u : PyVal}
    (h : imageFallback obj = .ok u) :
    u = ((((objLookup obj "listing_photos").bind firstElem).bind fun p =>
          (chainGet p "image").bind fun i => chainGet i "uri")).getD placeholderImage := by
  unfold imageFallback at h
  cases hv : objLookup obj "listing_photos" with
  | none =>
    simp only [objHasKey, hv, Option.isSome_none, Bool.false_eq_true, if_false] at h
    simp only [Except.ok.injEq] at h
    simp [hv, ← h]
  | some v =>
    simp only [objHasKey, hv, Option.isSome_some, if_true, Option.getD_some] at h
    cases v with
    | null => simp [pyLen] at h
    | bool b => simp [pyLen] at h
    | int n => simp [pyLen] at h
    | float q => simp [pyLen] at h
    | dict kvs =>
      simp only [pyLen] at h
      split at h
      case isTrue hpos =>
        simp [pyIndex0] at h
      case isFalse hpos =>
        simp only [Except.ok.injEq] at h
        simp [hv, firstElem, ← h]
    | str s =>
      simp only [pyLen] at h
      split at h
      case isTrue hpos =>
        cases hc : s.data with
        | nil =>
          simp only [String.length, hc, List.length_nil] at hpos
          exact absurd hpos (by omega)
        | cons c cs =>
          simp only [pyIndex0, hc] at h
          rw [imgFromPhotoVal] at h
          simp only [pyMem, strContains_single_image] at h
          simp only [Except.ok.injEq] at h
          simp [hv, firstElem, ← h]
      case isFalse hpos =>
        simp only [Except.ok.injEq] at h
        simp [hv, firstElem, ← h]
    | list xs =>
      cases xs with
      | nil =>
        simp only [pyLen, List.length_nil, Nat.lt_irrefl, if_false] at h
        simp only [Except.ok.injEq] at h
        simp [hv, firstElem, ← h]
      | cons x xs =>
        simp only [pyLen, List.length_cons, Nat.succ_pos, if_true, pyIndex0] at h
        split at h
        · simp at h
        · next u0 him =>
          simp only [Except.ok.injEq] at h
          have hc := imgFromPhotoVal_chain him
          simp [hv, firstElem, ← hc, ← h]
        · next him =>
          simp only [Except.ok.injEq] at h
          have hc := imgFromPhotoVal_chain him
          simp [hv, firstElem, ← hc, ← h]

/-- The image resolution of the structured extractor agrees with the
spec-side ordered fallback chain whenever it does not raise. -/
theorem imageOf_chain {obj : List (String × PyVal)} {u : PyVal}
    (h : imageOf obj = .ok u) : u = specImageChain obj := by
  unfold imageOf at h
  cases hp : objLookup obj "primary_listing_photo" with
  | none =>
    simp only [objHasKey, hp, Option.isSome_none, Bool.false_eq_true, if_false] at h
    rw [imageFallback_chain h]
    simp [specImageChain, hp]
  | some p =>
    simp only [objHasKey, hp, Option.isSome_some, if_true, Option.getD_some] at h
    split at h
    · simp at h
    · next u0 him =>
      simp only [Except.ok.injEq] at h
      have hc := imgFromPhotoVal_chain him
      simp [specImageChain, hp, ← hc, ← h]
    · next him =>
      rw [imageFallback_chain h]
      have hc := imgFromPhotoVal_chain him
      simp [specImageChain, hp, ← hc]

mutual
/-- Every record in the output of the structured search was produced by a
successful candidate body at some node. -/
theorem search_listings_src : ∀ (v : PyVal) (r : Listing),
    r ∈ search_listings v → ∃ obj, processNode obj = ProcOut.found r
  | .dict kvs, r => fun hr => by
    simp only [search_listings] at hr
    cases hpn : processNode kvs with
    | stop => rw [hpn] at hr; simp at hr
    | skip => rw [hpn] at hr; exact searchObjVals_src kvs r hr
    | found r0 =>
      rw [hpn] at hr
      rcases List.mem_cons.mp hr with rfl | h
      · exact ⟨kvs, hpn⟩
      · exact searchObjVals_src kvs r h
  | .list xs, r => fun hr =>
    searchArrElems_src xs r (by simpa only [search_listings] using hr)
  | .null, r => fun hr => by simp [search_listings] at hr
  | .bool b, r => fun hr => by simp [search_listings] at hr
  | .int n, r => fun hr => by simp [search_listings] at hr
  | .float q, r => fun hr => by simp [search_listings] at hr
  | .str s, r => fun hr => by simp [search_listings] at hr
theorem searchArrElems_src : ∀ (xs : List PyVal) (r : Listing),
    r ∈ searchArrElems xs → ∃ obj, processNode obj = ProcOut.found r
  | [], r => fun hr => by simp [searchArrElems] at hr
  | x :: xs, r => fun hr => by
    simp only [searchArrElems] at hr
    rcases List.mem_append.mp hr with h | h
    · exact search_listings_src x r h
    · exact searchArrElems_src xs r h
theorem searchObjVals_src : ∀ (kvs : List (String × PyVal)) (r : Listing),
    r ∈ searchObjVals kvs → ∃ obj, processNode obj = ProcOut.found r
  | [], r => fun hr => by simp [searchObjVals] at hr
  | (k, v) :: kvs, r => fun hr => by
    simp only [searchObjVals] at hr
    rcases List.mem_append.mp hr with h | h
    · exact search_listings_src v r h
    · exact searchObjVals_src kvs r h
end

/-- Every structured-extraction record has its `ImageURL` set. -/
theorem search_imageURL_isSome {v : PyVal} {r : Listing}
    (h : r ∈ search_listings v) : r.imageURL.isSome = true := by
  obtain ⟨obj, hobj⟩ := search_listings_src v r h
  obtain ⟨-, s, -, -, -, -, -, -, -, ⟨u, -, hI⟩, -⟩ := processNode_found_inv hobj
  simp [hI]

/-- Inversion of a successful DOM container: the produced record's fields in
terms of the found title and price spans. -/
theorem domProcess_inv {c : Container} {r : Listing}
    (h : domProcess c = some r) :
    ∃ t, c.spans.find? isTitleSpan = some t ∧
      3 ≤ (pySplit (pyStrip t)).length ∧
      pyInt ((pySplit (pyStrip t)).getD 0 "") = some r.year ∧
      r.make = (pySplit (pyStrip t)).getD 1 "" ∧
      r.model = (pySplit (pyStrip t)).getD 2 "" ∧
      (∃ p, c.spans.find? isPriceSpan = some p ∧
        r.price = some ((domPriceVal (pyStrip p) : Int) : Rat)) ∧
      r.imageURL = none := by
  unfold domProcess at h
  split at h
  · simp at h
  · next t ht =>
    split at h
    · simp at h
    · next p hp =>
      split at h
      · simp at h
      · next url0 hurl =>
        split at h
        · simp at h
        · next hlen =>
          split at h
          · simp at h
          · next y hy =>
            simp only [Option.some.injEq] at h
            subst h
            exact ⟨t, ht, by omega, hy, rfl, rfl, ⟨p, hp, rfl⟩, rfl⟩

theorem hasMarker_empty : hasMarker "" = false := rfl

/-- Unrolling the script loop: the flag records whether any block carried the
marker, and the accumulator collects the per-script records in order. -/
theorem scrapeFold (scripts : List String) (found : Bool) (acc : List Listing) :
    scripts.foldl scrapeStep (found, acc) =
      (found || scripts.any hasMarker, acc ++ structuredAll scripts) := by
  induction scripts generalizing found acc with
  | nil => simp [structuredAll]
  | cons s ss ih =>
    simp only [List.foldl_cons, List.any_cons]
    by_cases hs : s = ""
    · subst hs
      rw [show scrapeStep (found, acc) "" = (found, acc) from rfl]
      rw [ih]
      simp [structuredAll, scriptRecords, hasMarker_empty]
    · by_cases hm : hasMarker s
      · cases hj : jsonLoads s with
        | some v =>
          rw [show scrapeStep (found, acc) s = (true, acc ++ search_listings v) from by
            simp [scrapeStep, hs, hm, hj]]
          rw [ih]
          simp [structuredAll, scriptRecords, hs, hm, hj, List.append_assoc]
        | none =>
          rw [show scrapeStep (found, acc) s = (true, acc) from by
            simp [scrapeStep, hs, hm, hj]]
          rw [ih]
          simp [structuredAll, scriptRecords, hs, hm, hj]
      · rw [show scrapeStep (found, acc) s = (found, acc) from by
          simp [scrapeStep, hs, hm]]
        rw [ih]
        simp only [structuredAll, List.map_cons, List.flatten_cons]
        simp [scriptRecords, hs, hm]
    
/-- The pipeline chooses by the marker flag: DOM extraction is consulted
exactly when no nonempty script block carries a marker substring. -/
theorem scrapeExtract_eq (scripts : List String) (containers : List Container) :
    scrapeExtract scripts containers =
      if scripts.any hasMarker then structuredAll scripts else domExtract containers := by
  simp only [scrapeExtract]
  rw [scrapeFold]
  simp

/-- A rejected candidate makes the whole subtree contribute nothing. -/
theorem search_stop_nil {kvs : List (String × PyVal)}
    (h : processNode kvs = ProcOut.stop) :
    search_listings (PyVal.dict kvs) = [] := by
  simp [search_listings, h]

/-- The early `return` happens exactly under the title/year rejection
condition. -/
theorem processNode_stop_iff (obj : List (String × PyVal)) :
    processNode obj = ProcOut.stop ↔ rejectCond obj = true := by
  unfold processNode rejectCond
  by_cases hs : shapePred obj
  · simp only [hs, if_true, Bool.true_and]
    unfold processCandidate
    cases ht : titleStrOf obj with
    | error e => simp
    | ok s =>
      by_cases hlen : (pySplit s).length < 3
      · simp [hlen]
      · simp only [hlen, if_false]
        cases hy : pyInt ((pySplit s).getD 0 "") with
        | none => simp [hy, hlen]
        | some y =>
          simp only [hy, hlen]
          constructor
          · intro h
            exfalso
            split at h
            · simp at h
            · split at h
              · simp at h
              · split at h
                · simp at h
                · simp at h
          · intro h
            simp at h
  · simp [hs]

/-- Scripts without marker substrings contribute no structured records. -/
theorem structuredAll_nil_of_no_marker {scripts : List String}
    (h : scripts.any hasMarker = false) : structuredAll scripts = [] := by
  induction scripts with
  | nil => rfl
  | cons s ss ih =>
    simp only [List.any_cons, Bool.or_eq_false_iff] at h
    simp only [structuredAll, List.map_cons, List.flatten_cons]
    rw [show scriptRecords s = [] from by
      by_cases hs : s = "" <;> simp [scriptRecords, hs, h.1]]
    simpa [structuredAll] using ih h.2

/-! ### The claims -/

/-- C1: counterexample — page content with no embedded JSON and no matching
DOM containers: both strategies yield nothing, yet the extraction pipeline
returns the EMPTY sequence, not the fixed 5-record synthetic sample set the
claim asserts. -/
theorem C1_counterexample :
    scrapeExtract [] [] = [] ∧ sample_data.length = 5 := ⟨rfl, rfl⟩

/-- C1 (amended): when structured extraction over all embedded JSON blocks
and markup (DOM) extraction both yield an empty sequence, the extraction
pipeline returns the empty sequence; the fixed synthetic sample set — which
does consist of 5 records with Year, Make, Model, Price, Mileage, URL and
ImageURL all populated — is returned only on browser-initialization failure
or a scraping exception, outside the pure pipeline. -/
theorem C1_amended (scripts : List String) (containers : List Container)
    (hjson : structuredAll scripts = [])
    (hdom : domExtract containers = []) :
    scrapeExtract scripts containers = [] ∧
    sample_data.length = 5 ∧ sample_data.all recordPopulated = true := by
  refine ⟨?_, rfl, rfl⟩
  rw [scrapeExtract_eq]
  split
  · exact hjson
  · exact hdom

/-- C1 witness: the amended theorem applied to the empty page. -/
theorem C1_witness :
    scrapeExtract ([] : List String) ([] : List Container) = [] ∧
    sample_data.length = 5 ∧ sample_data.all recordPopulated = true :=
  C1_amended [] [] rfl rfl

/-- C2: counterexample — a script block that contains a marker substring but
yields no records: structured extraction is empty and a DOM container would
yield a record, yet the pipeline returns the empty sequence — markup
extraction is suppressed even though structured extraction was empty, so the
claimed "exactly when" equivalence fails. -/
theorem C2_counterexample :
    structuredAll [markerOnlyScript] = [] ∧
    (domExtract [goodContainer]).length = 1 ∧
    scrapeExtract [markerOnlyScript] [goodContainer] = [] := ⟨rfl, rfl, rfl⟩

/-- C2 (amended): markup extraction runs, and its records are used, exactly
when NO nonempty script block contains one of the two marker substrings —
not when structured extraction yields an empty sequence (a marker-bearing
block with no extractable records still suppresses the fallback).  When any
marker is present the result is exactly the structured records; in
particular a nonempty structured result is returned alone, with no
DOM-derived record. -/
theorem C2_amended (scripts : List String) (containers : List Container) :
    (scrapeExtract scripts containers =
      if scripts.any hasMarker then structuredAll scripts
      else domExtract containers) ∧
    (0 < (structuredAll scripts).length →
      scrapeExtract scripts containers = structuredAll scripts) := by
  refine ⟨scrapeExtract_eq scripts containers, ?_⟩
  intro hlen
  rw [scrapeExtract_eq]
  cases hm : scripts.any hasMarker with
  | true => simp
  | false =>
    rw [structuredAll_nil_of_no_marker hm] at hlen
    simp at hlen

/-- C2 witness: the amended theorem applied to a one-listing script. -/
theorem C2_witness :
    scrapeExtract [goodScript] [goodContainer] = structuredAll [goodScript] :=
  (C2_amended [goodScript] [goodContainer]).2 (by decide)

/-- C3: counterexample — a shape-qualifying node rejected for its one-token
title does NOT have its children traversed: the qualifying listing nested
inside it is lost, and the whole extraction of the outer node is empty,
while the inner node alone yields one record. -/
theorem C3_counterexample :
    shapePred objRejectedOuter = true ∧
    search_listings (PyVal.dict objRejectedOuter) = [] ∧
    (search_listings (PyVal.dict objInner)).length = 1 := ⟨rfl, rfl, rfl⟩

/-- C3 (amended): a candidate rejected because its title splits into fewer
than 3 tokens or its first token fails integer parsing does NOT have its
children traversed — the early `return` abandons the entire subtree, so a
qualifying node nested inside a rejected node is never extracted; rejection
happens exactly when the shape predicate holds and the resolved title is a
string with fewer than 3 tokens or a non-integer first token. -/
theorem C3_amended :
    (∀ kvs : List (String × PyVal), processNode kvs = ProcOut.stop →
      search_listings (PyVal.dict kvs) = []) ∧
    (∀ kvs : List (String × PyVal),
      processNode kvs = ProcOut.stop ↔ rejectCond kvs = true) :=
  ⟨fun _ h => search_stop_nil h, processNode_stop_iff⟩

/-- C3 witness: the amended theorem applied to the rejected outer node. -/
theorem C3_witness : search_listings (PyVal.dict objRejectedOuter) = [] :=
  C3_amended.1 objRejectedOuter (by rfl)

set_option maxRecDepth 40000 in
/-- C4: counterexample — a qualifying node buried 100 wrapper objects deep,
far beyond the recommended bound of 64, is still extracted: deep branches
are never abandoned, because the traversal has no depth bound at all. -/
theorem C4_counterexample :
    (search_listings (wrapK 100 (PyVal.dict objInner))).length = 1 := rfl

/-- C4 (amended): the structured traversal has NO depth bound — it is plain
unbounded recursion, and wrapping any input under any number of additional
object levels never changes the extraction result (the traversal of this
model is total by construction; the Python original instead hits the
interpreter recursion limit on deep enough input, and that `RecursionError`
is caught by the per-script handler of lines 269-271, which drops the rest
of that one script block — keeping any records already appended — and
continues with the remaining blocks; no branch-level abandonment and no
sample data). -/
theorem C4_amended (k : Nat) (v : PyVal) :
    search_listings (wrapK k v) = search_listings v := by
  induction k with
  | zero => rfl
  | succ k ih =>
    show search_listings (PyVal.dict [("wrapped", wrapK k v)]) = _
    simp only [search_listings]
    rw [show processNode [("wrapped", wrapK k v)] = ProcOut.skip from rfl]
    simp only [searchObjVals]
    rw [ih]
    simp

/-- C5: counterexample — the `K` suffix is matched CASE-SENSITIVELY by
`(\d+)K\s*km`, so the lowercase text "78k km" normalizes to 0, not to the
78000 the claimed case-insensitive matching would give. -/
theorem C5_counterexample :
    normalize_mileage "78k km" = 0 ∧ normalize_mileage "78k km" ≠ 78000 :=
  ⟨rfl, by decide⟩

/-- C5 (amended): mileage normalization tries `(\d+)K\s*km` first — with a
case-SENSITIVE uppercase `K` and lowercase `km` — yielding the integer times
1000 on a match; otherwise `(\d+(?:,\d+)*)\s*km` with separators stripped;
otherwise 0.  So "78K km" → 78000, "45,000 km" → 45000, "some text" → 0,
and lowercase "78k km" → 0. -/
theorem C5_amended :
    (∀ s n, searchKkm s = some n → normalize_mileage s = n * 1000) ∧
    normalize_mileage "78K km" = 78000 ∧
    normalize_mileage "45,000 km" = 45000 ∧
    normalize_mileage "some text" = 0 ∧
    normalize_mileage "78k km" = 0 := by
  refine ⟨?_, rfl, rfl, rfl, rfl⟩
  intro s n h
  simp [normalize_mileage, h]

/-- C5 witness: the K-first rule applied to the canonical example. -/
theorem C5_witness : normalize_mileage "78K km" = 78 * 1000 :=
  C5_amended.1 "78K km" 78 rfl

/-- C6: counterexample — the structured path parses the price amount with
`float(...)` (no character stripping), so the amount string "-1" produces a
record whose Price is negative, refuting "every produced ListingRecord has a
Price field holding a non-negative number". -/
theorem C6_counterexample :
    (search_listings (PyVal.dict objNeg)).map (fun r => r.price) = [some (-1)] ∧
    ¬ (0 : Rat) ≤ -1 := ⟨rfl, by decide⟩

/-- C6 (amended): in the DOM path the raw price text is stripped of every
non-digit, non-decimal-point character and parsed with `int()` (unparsable →
0), so "$15,995" → 15995, "N/A" → 0, every DOM record carries a present,
nonnegative Price, and an unparsable price never discards the container;
the structured path instead applies `float` directly to the raw amount
(no stripping), which can be negative, leaves the Price field absent when
the price object lacks an `amount` key, and aborts the candidate on a
non-numeric, non-string amount. -/
theorem C6_amended :
    (∀ s : String, 0 ≤ domPriceVal s) ∧
    domPriceVal "$15,995" = 15995 ∧
    domPriceVal "N/A" = 0 ∧
    (∀ (cs : List Container) (r : Listing), r ∈ domExtract cs →
      ∃ q : Rat, r.price = some q ∧ 0 ≤ q) ∧
    (domExtract [naContainer]).map (fun r => r.price) = [some 0] := by
  refine ⟨domPriceVal_nonneg, rfl, rfl, ?_, rfl⟩
  intro cs r hr
  rcases List.mem_filterMap.mp hr with ⟨c, _, hc⟩
  obtain ⟨t, -, -, -, -, -, ⟨p, -, hp⟩, -⟩ := domProcess_inv hc
  exact ⟨_, hp, by exact_mod_cast domPriceVal_nonneg (pyStrip p)⟩

/-- C6 witness: the DOM-record clause applied to a concrete container. -/
theorem C6_witness : ∃ q : Rat, goodDomRecord.price = some q ∧ 0 ≤ q :=
  C6_amended.2.2.2.1 [goodContainer] goodDomRecord
    (by rw [show domExtract [goodContainer] = [goodDomRecord] from rfl]
        exact List.mem_singleton.mpr rfl)

/-- C7: counterexample — a shape-qualifying candidate whose title has at
least 3 tokens and an exactly-parsing first token can still yield NO record:
a JSON-null amount makes `float(None)` raise `TypeError` past the
`ValueError`-only handler, so the claimed "exactly when" equivalence fails. -/
theorem C7_counterexample :
    shapePred objAmountNull = true ∧
    3 ≤ (pySplit "2018 Honda Civic EX").length ∧
    pyInt "2018" = some 2018 ∧
    search_listings (PyVal.dict objAmountNull) = [] := ⟨rfl, by decide, rfl, rfl⟩

/-- C7 (amended): in both paths, a produced record's fields come verbatim
from the title tokens — Year is the exact integer parse of token 0 (with at
least 3 tokens present), Make is token 1 and Model is token 2, both
nonempty — and a bad title shape or year parse always rejects; but title
validity alone does not guarantee a record: the structured path can still
abort on price/mileage/image exceptions and the DOM path also needs price
and link elements.  "Honda Civic 2018" yields no record; "2018 Honda Civic
EX" yields Year=2018, Make="Honda", Model="Civic". -/
theorem C7_amended :
    (∀ (obj : List (String × PyVal)) (r : Listing),
      processNode obj = ProcOut.found r →
      ∃ s, titleStrOf obj = .ok s ∧
        3 ≤ (pySplit s).length ∧
        pyInt ((pySplit s).getD 0 "") = some r.year ∧
        r.make = (pySplit s).getD 1 "" ∧
        r.model = (pySplit s).getD 2 "" ∧
        r.make ≠ "" ∧ r.model ≠ "") ∧
    (∀ (c : Container) (r : Listing),
      domProcess c = some r →
      ∃ t, c.spans.find? isTitleSpan = some t ∧
        3 ≤ (pySplit (pyStrip t)).length ∧
        pyInt ((pySplit (pyStrip t)).getD 0 "") = some r.year ∧
        r.make = (pySplit (pyStrip t)).getD 1 "" ∧
        r.model = (pySplit (pyStrip t)).getD 2 "" ∧
        r.make ≠ "" ∧ r.model ≠ "") ∧
    search_listings (PyVal.dict objYearNotFirst) = [] ∧
    (search_listings (PyVal.dict objGood)).map (fun r => (r.year, r.make, r.model)) =
      [(2018, "Honda", "Civic")] := by
  refine ⟨?_, ?_, rfl, rfl⟩
  · intro obj r h
    obtain ⟨-, s, hts, hlen, hy, hmk, hmd, -, -, -, -⟩ := processNode_found_inv h
    refine ⟨s, hts, hlen, hy, hmk, hmd, ?_, ?_⟩
    · rw [hmk]
      exact pySplit_ne_empty (getD_mem _ 1 _ (by omega))
    · rw [hmd]
      exact pySplit_ne_empty (getD_mem _ 2 _ (by omega))
  · intro c r h
    obtain ⟨t, ht, hlen, hy, hmk, hmd, -, -⟩ := domProcess_inv h
    refine ⟨t, ht, hlen, hy, hmk, hmd, ?_, ?_⟩
    · rw [hmk]
      exact pySplit_ne_empty (getD_mem _ 1 _ (by omega))
    · rw [hmd]
      exact pySplit_ne_empty (getD_mem _ 2 _ (by omega))

/-- C7 witness: the structured clause applied to the canonical good node. -/
theorem C7_witness :
    ∃ s, titleStrOf objGood = .ok s ∧
      3 ≤ (pySplit s).length ∧
      pyInt ((pySplit s).getD 0 "") = some goodJsonRecord.year ∧
      goodJsonRecord.make = (pySplit s).getD 1 "" ∧
      goodJsonRecord.model = (pySplit s).getD 2 "" ∧
      goodJsonRecord.make ≠ "" ∧ goodJsonRecord.model ≠ "" :=
  C7_amended.1 objGood goodJsonRecord (by rfl)

set_option maxHeartbeats 4000000 in
/-- C8: the query builder emits its parameters in the fixed order minPrice,
maxPrice, daysSinceListed, minMileage, maxMileage, minYear, maxYear,
transmissionType, query, exact; an absent optional field contributes no
parameter at all; `query` is make++model when both are present, otherwise
whichever is present, otherwise omitted; `exact=false` is always last; and,
being a function of the options, identical inputs give identical strings. -/
theorem C8_theorem (o : FilterOptions) :
    build_search_url o = build_search_url_spec o := by
  obtain ⟨loc, a, b, c, d, e, f, g, h, i, j⟩ := o
  cases a <;> cases b <;> cases c <;> cases d <;> cases e <;> cases f <;>
    cases g <;> cases h <;> cases i <;> cases j <;> rfl

/-- C9: the image URL of every structured-extraction record is resolved by
the ordered fallback chain — the primary listing photo's image URI if
present, else the first listing-photos entry's image URI if present, else
the fixed placeholder — and consequently every structured record has an
ImageURL. -/
theorem C9_theorem :
    (∀ (obj : List (String × PyVal)) (u : PyVal),
      imageOf obj = .ok u → u = specImageChain obj) ∧
    (∀ (v : PyVal) (r : Listing), r ∈ search_listings v →
      r.imageURL.isSome = true) :=
  ⟨fun _ _ h => imageOf_chain h, fun _ _ h => search_imageURL_isSome h⟩

/-- C9 witness: the chain clause applied to a node with a primary photo. -/
theorem C9_witness : PyVal.str "http://img" = specImageChain objImg :=
  C9_theorem.1 objImg (.str "http://img") rfl

/-- C10: records from the markup (DOM) fallback never carry an ImageURL —
no placeholder is substituted there — while structured-extraction records
and the synthetic sample set always do (matching the app's
`if "ImageURL" in car` guard). -/
theorem C10_theorem :
    (∀ (cs : List Container) (r : Listing), r ∈ domExtract cs →
      r.imageURL = none) ∧
    (∀ (v : PyVal) (r : Listing), r ∈ search_listings v →
      r.imageURL.isSome = true) ∧
    sample_data.all (fun r => r.imageURL.isSome) = true := by
  refine ⟨?_, fun _ _ h => search_imageURL_isSome h, rfl⟩
  intro cs r hr
  rcases List.mem_filterMap.mp hr with ⟨c, _, hc⟩
  obtain ⟨t, -, -, -, -, -, -, hI⟩ := domProcess_inv hc
  exact hI

/-- C10 witness: the DOM clause applied to a concrete container. -/
theorem C10_witness : goodDomRecord.imageURL = none :=
  C10_theorem.1 [goodContainer] goodDomRecord
    (by rw [show domExtract [goodContainer] = [goodDomRecord] from rfl]
        exact List.mem_singleton.mpr rfl)
